import Mathlib

/-! QingFeng: request routing and configuration composition.

A shallow embedding of `qingfeng.go` (`HTTPHandler` and the closure it returns)
together with the properties of its routing logic.

Modelling conventions.

* Go `string` values are Lean `String`s (well-formed text).  On such strings the
  byte-wise prefix tests of package `strings` coincide with the code-point-wise
  ones used here, and byte-wise ordering coincides with code-point ordering.
* Go `[]byte` is `List UInt8`; a slice that may be `nil` is an `Option (List _)`,
  `none` being the `nil` slice and `some []` the empty non-nil slice.  A `*bool`
  is an `Option Bool`.
* The file system consulted by `os.ReadFile` is a parameter of the request
  handler: a function from path to the file's bytes, `none` when the read fails.
* The handler's observable behaviour is recorded in a `Result`: either the
  response it wrote itself, or the embedded file server it delegated to together
  with the value of `r.URL.Path` at that moment, plus the list of files it read.
-/

namespace QingFeng

/-! ## Data model (qingfeng.go, lines 18-99) -/

/-- Version is the current version of QingFeng. -/
def Version : String := "1.5.8"

/-- UITheme represents available UI themes (`type UITheme string`). -/
abbrev UITheme := String

def ThemeDefault : UITheme := "default"
def ThemeMinimal : UITheme := "minimal"
def ThemeModern : UITheme := "modern"

/-- Header is a custom HTTP header with key-value pair. -/
structure Header where
  Key : String
  Value : String
deriving DecidableEq, Repr

/-- Environment is a deployment environment configuration. -/
structure Environment where
  Name : String
  BaseURL : String
deriving DecidableEq, Repr

/-- Config holds the configuration of the UI. -/
structure Config where
  Title : String := ""
  Description : String := ""
  Version : String := ""
  BasePath : String := ""
  DocPath : String := ""
  DocJSON : Option (List UInt8) := none
  EnableDebug : Bool := false
  DarkMode : Bool := false
  PersistParams : Option Bool := none
  GlobalHeaders : Option (List Header) := none
  AutoGenerate : Bool := false
  SwagSearchDir : String := ""
  SwagOutputDir : String := ""
  SwagArgs : Option (List String) := none
  UITheme : UITheme := ""
  Logo : String := ""
  LogoLink : String := ""
  Environments : Option (List Environment) := none
deriving DecidableEq, Repr

/-- DefaultConfig returns a default configuration. -/
def DefaultConfig : Config :=
  { Title := "API Documentation"
    Description := "API Documentation powered by wdc (青锋)"
    Version := "1.0.0"
    BasePath := "/doc"
    DocPath := "./docs/swagger.json"
    EnableDebug := true
    DarkMode := false }

/-! ## Library functions used by the handler -/

/-- Go `strings.HasPrefix`. -/
def strings.HasPrefix (s pre : String) : Bool :=
  pre.data.isPrefixOf s.data

/-- Go `strings.TrimPrefix`: `s` without the leading `pre`, or `s` unchanged. -/
def strings.TrimPrefix (s pre : String) : String :=
  if strings.HasPrefix s pre then String.mk (s.data.drop pre.data.length) else s

/-- Go `[]byte(s)`: the UTF-8 encoding of a string. -/
def bytesOf (s : String) : List UInt8 :=
  s.data.flatMap String.utf8EncodeChar

/-- The parsed query of a request (`r.URL.Query()`): the key/value pairs in the
order in which they appear in the URL. -/
abbrev Values := List (String × String)

/-- Go `url.Values.Get`: the first value associated with the key, or the empty
string when there is none. -/
def Values.Get (v : Values) (key : String) : String :=
  match v.find? (fun kv => kv.1 == key) with
  | some kv => kv.2
  | none => ""

/-- The state of the file system as seen by `os.ReadFile`: the content of the
file at a path, or `none` when reading it fails. -/
abbrev FileSystem := String → Option (List UInt8)

/-! ### encoding/json -/

/-- JSON documents. -/
inductive JSON where
  | null : JSON
  | bool (b : Bool) : JSON
  | str (s : String) : JSON
  | arr (xs : List JSON) : JSON
  | obj (kvs : List (String × JSON)) : JSON

/-- The table `hex` of encoding/json. -/
def json.hex (n : Nat) : Char :=
  "0123456789abcdef".data.getD n '0'

/-- How encoding/json writes one character of a string (HTML escaping on, which
is what `json.Marshal` uses). -/
def json.escapeChar (c : Char) : String :=
  if c = '\\' ∨ c = '"' then String.mk ['\\', c]
  else if c.toNat = 8 then "\\b"
  else if c.toNat = 12 then "\\f"
  else if c = '\n' then "\\n"
  else if c = '\r' then "\\r"
  else if c = '\t' then "\\t"
  else if c.toNat < 32 ∨ c = '<' ∨ c = '>' ∨ c = '&' then
    String.mk ['\\', 'u', '0', '0', json.hex (c.toNat / 16), json.hex (c.toNat % 16)]
  else if c.toNat = 0x2028 ∨ c.toNat = 0x2029 then
    String.mk ['\\', 'u', '2', '0', '2', json.hex (c.toNat % 16)]
  else String.mk [c]

/-- A quoted JSON string, as written by encoding/json. -/
def json.quote (s : String) : String :=
  "\"" ++ String.join (s.data.map json.escapeChar) ++ "\""

mutual
/-- The compact JSON text of a document. -/
def JSON.render : JSON → String
  | .null => "null"
  | .bool true => "true"
  | .bool false => "false"
  | .str s => json.quote s
  | .arr xs => "[" ++ JSON.renderElems xs ++ "]"
  | .obj kvs => "\x7b" ++ JSON.renderFields kvs ++ "\x7d"
/-- The elements of an array, separated by commas. -/
def JSON.renderElems : List JSON → String
  | [] => ""
  | [x] => x.render
  | x :: y :: r => x.render ++ "," ++ JSON.renderElems (y :: r)
/-- The members of an object, separated by commas. -/
def JSON.renderFields : List (String × JSON) → String
  | [] => ""
  | [(k, v)] => json.quote k ++ ":" ++ v.render
  | (k, v) :: y :: r => json.quote k ++ ":" ++ v.render ++ "," ++ JSON.renderFields (y :: r)
end

/-- The member of an object with the given name. -/
def JSON.field (j : JSON) (name : String) : Option JSON :=
  match j with
  | .obj kvs => kvs.lookup name
  | _ => none

/-- Order on map keys used by encoding/json (`strings.Compare`). -/
def json.keyLt : List Char → List Char → Bool
  | [], [] => false
  | [], _ :: _ => true
  | _ :: _, [] => false
  | a :: as, b :: bs =>
    if a.toNat < b.toNat then true
    else if b.toNat < a.toNat then false
    else json.keyLt as bs

/-- Insertion of a member into a key-sorted member list. -/
def json.insertKey (kv : String × JSON) : List (String × JSON) → List (String × JSON)
  | [] => [kv]
  | x :: xs => if json.keyLt x.1.data kv.1.data then x :: json.insertKey kv xs else kv :: x :: xs

/-- Members sorted by key, the order in which encoding/json writes a map. -/
def json.sortKeys : List (String × JSON) → List (String × JSON)
  | [] => []
  | x :: xs => json.insertKey x (json.sortKeys xs)

/-- How encoding/json encodes a slice: `null` for the nil slice, otherwise the
array of the encoded elements in order. -/
def json.slice {α : Type} (f : α → JSON) : Option (List α) → JSON
  | none => .null
  | some xs => .arr (xs.map f)

/-- Encoding of a `Header` (struct tags `key`, `value`). -/
def Header.toJSON (h : Header) : JSON :=
  .obj [("key", .str h.Key), ("value", .str h.Value)]

/-- Encoding of an `Environment` (struct tags `name`, `baseUrl`). -/
def Environment.toJSON (e : Environment) : JSON :=
  .obj [("name", .str e.Name), ("baseUrl", .str e.BaseURL)]

/-- The dynamic values stored in the `map[string]interface{}` that `HTTPHandler`
marshals. -/
inductive GoValue where
  | string (s : String)
  | bool (b : Bool)
  | strings (xs : Option (List String))
  | headers (hs : Option (List Header))
  | environments (es : Option (List Environment))

/-- Encoding of a dynamic value according to its type. -/
def GoValue.toJSON : GoValue → JSON
  | .string s => .str s
  | .bool b => .bool b
  | .strings xs => json.slice JSON.str xs
  | .headers hs => json.slice Header.toJSON hs
  | .environments es => json.slice Environment.toJSON es

/-- The document `json.Marshal` produces for a `map[string]interface{}`: an
object whose members are sorted by key. -/
def json.document (m : List (String × GoValue)) : JSON :=
  .obj (json.sortKeys (m.map fun kv => (kv.1, kv.2.toJSON)))

/-- Go `json.Marshal` on a `map[string]interface{}`. -/
def json.Marshal (m : List (String × GoValue)) : String :=
  (json.document m).render

/-! ## The handler (qingfeng.go, lines 138-248) -/

/-- The sub-trees of the embedded `ui` directory a file server is rooted at
(`fs.Sub(uiFS, "ui/default")` and so on). -/
inductive FS where
  | defaultFS
  | minimalFS
  | modernFS
  | assetsFS
deriving DecidableEq, Repr

/-- The map `fileServers` from theme name to file server (lines 157-161). -/
def fileServers : List (String × FS) :=
  [("default", FS.defaultFS), ("minimal", FS.minimalFS), ("modern", FS.modernFS)]

/-- The file server `assetsServer` (line 162). -/
def assetsServer : FS := FS.assetsFS

/-- A response written by the handler itself: the status (200 unless
`WriteHeader` was called), the `Content-Type` header it set and the body. -/
structure Response where
  status : Nat
  contentType : String
  body : List UInt8
deriving DecidableEq, Repr

/-- What the handler did with a request. -/
inductive Outcome where
  /-- It wrote the response itself. -/
  | wrote (resp : Response)
  /-- It set `r.URL.Path` to `path` and called `ServeHTTP` of the file server
  rooted at `root`. -/
  | served (root : FS) (path : String)
  /-- It called `ServeHTTP` on the nil handler that a failed map lookup returns
  (a run-time panic), `r.URL.Path` being `path`. -/
  | nilHandler (path : String)
deriving DecidableEq, Repr

/-- Outcome of a request together with the files read while handling it. -/
structure Result where
  outcome : Outcome
  reads : List String
deriving DecidableEq, Repr

/-- An incoming request: `r.URL.Path` and `r.URL.Query()`. -/
structure Request where
  path : String
  query : Values := []
deriving DecidableEq, Repr

/-- The values captured by the closure `HTTPHandler` returns: the configuration
after defaulting, `defaultTheme` and `configJSON`. -/
structure Handler where
  cfg : Config
  defaultTheme : String
  configJSON : String

/-- The map literal handed to `json.Marshal` (lines 177-191), in source order. -/
def configMap (cfg : Config) (defaultTheme : String) (persistParams : Bool) :
    List (String × GoValue) :=
  [ ("title", .string cfg.Title),
    ("description", .string cfg.Description),
    ("version", .string cfg.Version),
    ("enableDebug", .bool cfg.EnableDebug),
    ("darkMode", .bool cfg.DarkMode),
    ("globalHeaders", .headers cfg.GlobalHeaders),
    ("defaultTheme", .string defaultTheme),
    ("themes", .strings (some ["default", "minimal", "modern"])),
    ("qingfengVersion", .string Version),
    ("logo", .string cfg.Logo),
    ("logoLink", .string cfg.LogoLink),
    ("environments", .environments cfg.Environments),
    ("persistParams", .bool persistParams) ]

/-- The configuration after the defaulting of lines 139-144. -/
def withDefaults (cfg : Config) : Config :=
  let cfg := if cfg.BasePath = "" then { cfg with BasePath := "/doc" } else cfg
  if cfg.DocPath = "" then { cfg with DocPath := "./docs/swagger.json" } else cfg

/-- The local `defaultTheme` (lines 165-168). -/
def defaultThemeOf (cfg : Config) : String :=
  if cfg.UITheme = "" then "default" else cfg.UITheme

/-- The local `persistParams` (lines 171-174). -/
def persistParamsOf (cfg : Config) : Bool :=
  match cfg.PersistParams with
  | some b => b
  | none => true

/-- HTTPHandler (lines 138-191): everything computed once, before the closure is
returned.  The optional `generateSwaggerDocs` step only runs an external command
on the file system, which is a parameter of `ServeHTTP`. -/
def HTTPHandler (cfg : Config) : Handler :=
  let cfg := withDefaults cfg
  let defaultTheme := defaultThemeOf cfg
  let persistParams := persistParamsOf cfg
  { cfg := cfg
    defaultTheme := defaultTheme
    configJSON := json.Marshal (configMap cfg defaultTheme persistParams) }

/-- The request path with the base path removed (lines 194-202). -/
def Handler.routePath (h : Handler) (r : Request) : String :=
  let path := r.path
  let path :=
    if h.cfg.BasePath ≠ "" ∧ h.cfg.BasePath ≠ "/" then strings.TrimPrefix path h.cfg.BasePath
    else path
  if path = "" then "/" else path

/-- The theme selected for a request (lines 205-211). -/
def Handler.theme (h : Handler) (r : Request) : String :=
  let theme := r.query.Get "theme"
  let theme := if theme = "" then h.defaultTheme else theme
  if (fileServers.lookup theme).isNone then h.defaultTheme else theme

/-- The closure returned by `HTTPHandler` (lines 193-247). -/
def Handler.ServeHTTP (h : Handler) (fs : FileSystem) (r : Request) : Result :=
  let path := h.routePath r
  let theme := h.theme r
  if path = "/swagger.json" ∨ path = "/api-docs" then
    match h.cfg.DocJSON with
    | some doc =>
      { outcome := .wrote { status := 200, contentType := "application/json", body := doc }
        reads := [] }
    | none =>
      match fs h.cfg.DocPath with
      | none =>
        { outcome := .wrote
            { status := 404, contentType := "application/json"
              body := bytesOf "\x7b\"error\": \"swagger.json not found\"\x7d" }
          reads := [h.cfg.DocPath] }
      | some data =>
        { outcome := .wrote { status := 200, contentType := "application/json", body := data }
          reads := [h.cfg.DocPath] }
  else if path = "/config.json" then
    { outcome := .wrote
        { status := 200, contentType := "application/json", body := bytesOf h.configJSON }
      reads := [] }
  else if strings.HasPrefix path "/assets/" then
    { outcome := .served assetsServer (strings.TrimPrefix path "/assets"), reads := [] }
  else
    match fileServers.lookup theme with
    | some server => { outcome := .served server path, reads := [] }
    | none => { outcome := .nilHandler path, reads := [] }

/-- The `/config.json` document of a configuration, before it is written out as
text: what `json.Marshal` is applied to in `HTTPHandler`. -/
def configDocument (cfg : Config) : JSON :=
  let c := withDefaults cfg
  json.document (configMap c (defaultThemeOf c) (persistParamsOf c))

/-! # Properties -/

set_option maxRecDepth 100000

/-! ## Auxiliary facts -/

theorem withDefaults_BasePath (cfg : Config) :
    (withDefaults cfg).BasePath = if cfg.BasePath = "" then "/doc" else cfg.BasePath := by
  unfold withDefaults
  by_cases h1 : cfg.BasePath = "" <;> by_cases h2 : cfg.DocPath = "" <;> simp [h1, h2]

theorem withDefaults_DocPath (cfg : Config) :
    (withDefaults cfg).DocPath =
      if cfg.DocPath = "" then "./docs/swagger.json" else cfg.DocPath := by
  unfold withDefaults
  by_cases h1 : cfg.BasePath = "" <;> by_cases h2 : cfg.DocPath = "" <;> simp [h1, h2]

/-- Defaulting touches `BasePath` and `DocPath` only. -/
theorem withDefaults_rest (cfg : Config) :
    withDefaults cfg =
      { cfg with BasePath := (withDefaults cfg).BasePath, DocPath := (withDefaults cfg).DocPath } := by
  unfold withDefaults
  by_cases h1 : cfg.BasePath = "" <;> by_cases h2 : cfg.DocPath = "" <;> simp [h1, h2]

theorem withDefaults_DocJSON (cfg : Config) : (withDefaults cfg).DocJSON = cfg.DocJSON := by
  rw [withDefaults_rest]

theorem withDefaults_UITheme (cfg : Config) : (withDefaults cfg).UITheme = cfg.UITheme := by
  rw [withDefaults_rest]

theorem HTTPHandler_defaultTheme (cfg : Config) :
    (HTTPHandler cfg).defaultTheme = defaultThemeOf cfg := by
  show defaultThemeOf (withDefaults cfg) = defaultThemeOf cfg
  unfold defaultThemeOf
  rw [withDefaults_UITheme]

/-- The members of the `/config.json` document, in the order they are written. -/
theorem configDocument_eq (cfg : Config) :
    configDocument cfg = .obj
      [ ("darkMode", .bool cfg.DarkMode),
        ("defaultTheme", .str (defaultThemeOf cfg)),
        ("description", .str cfg.Description),
        ("enableDebug", .bool cfg.EnableDebug),
        ("environments", json.slice Environment.toJSON cfg.Environments),
        ("globalHeaders", json.slice Header.toJSON cfg.GlobalHeaders),
        ("logo", .str cfg.Logo),
        ("logoLink", .str cfg.LogoLink),
        ("persistParams", .bool (persistParamsOf cfg)),
        ("qingfengVersion", .str Version),
        ("themes", .arr [.str "default", .str "minimal", .str "modern"]),
        ("title", .str cfg.Title),
        ("version", .str cfg.Version) ] := by
  unfold configDocument
  rw [withDefaults_rest]
  rfl

/-- The text served at `/config.json` is the rendering of `configDocument`. -/
theorem configJSON_eq_render (cfg : Config) :
    (HTTPHandler cfg).configJSON = (configDocument cfg).render := rfl

theorem strings.TrimPrefix_append (b p : String) : strings.TrimPrefix (b ++ p) b = p := by
  simp [strings.TrimPrefix, strings.HasPrefix, List.isPrefixOf_iff_prefix]

theorem strings.TrimPrefix_of_not (s b : String) (h : strings.HasPrefix s b = false) :
    strings.TrimPrefix s b = s := by
  simp [strings.TrimPrefix, h]

/-- With a base path that is neither empty nor the root, the base path is
removed from a request path that starts with it. -/
theorem routePath_append (cfg : Config) (p : String) (q : Values)
    (h1 : cfg.BasePath ≠ "") (h2 : cfg.BasePath ≠ "/") :
    (HTTPHandler cfg).routePath ⟨cfg.BasePath ++ p, q⟩ = if p = "" then "/" else p := by
  have hb : (HTTPHandler cfg).cfg.BasePath = cfg.BasePath := by
    show (withDefaults cfg).BasePath = cfg.BasePath
    rw [withDefaults_BasePath, if_neg h1]
  unfold Handler.routePath
  simp only [hb, ne_eq, h1, h2, not_false_eq_true, and_self, if_true,
    strings.TrimPrefix_append]

/-- The selected theme depends on the query only through `Get "theme"`. -/
theorem theme_congr (h : Handler) (p p' : String) (q q' : Values)
    (hq : q.Get "theme" = q'.Get "theme") : h.theme ⟨p, q⟩ = h.theme ⟨p', q'⟩ := by
  simp only [Handler.theme, hq]

/-- The handler's result is determined by the route path and the selected theme. -/
theorem ServeHTTP_congr (h : Handler) (fs : FileSystem) (r r' : Request)
    (hp : h.routePath r = h.routePath r') (ht : h.theme r = h.theme r') :
    h.ServeHTTP fs r = h.ServeHTTP fs r' := by
  simp only [Handler.ServeHTTP, hp, ht]

theorem Values.Get_of_absent (q : Values) (key : String) (h : ∀ kv ∈ q, kv.1 ≠ key) :
    q.Get key = "" := by
  have hf : q.find? (fun kv => kv.1 == key) = none := by
    rw [List.find?_eq_none]
    intro kv hkv
    simpa using h kv hkv
  simp [Values.Get, hf]

theorem lookup_isNone_of_not_mem (t : String) (h : t ∉ ["default", "minimal", "modern"]) :
    fileServers.lookup t = none := by
  simp only [List.mem_cons, List.mem_singleton, List.not_mem_nil, or_false, not_or] at h
  obtain ⟨h1, h2, h3⟩ := h
  have e1 : (t == "default") = false := by simpa using h1
  have e2 : (t == "minimal") = false := by simpa using h2
  have e3 : (t == "modern") = false := by simpa using h3
  simp [fileServers, List.lookup, e1, e2, e3]

theorem lookup_isSome_of_mem (t : String) (h : t ∈ ["default", "minimal", "modern"]) :
    ∃ root, fileServers.lookup t = some root := by
  simp only [List.mem_cons, List.mem_singleton, List.not_mem_nil, or_false] at h
  rcases h with h | h | h <;> subst h
  · exact ⟨FS.defaultFS, by decide⟩
  · exact ⟨FS.minimalFS, by decide⟩
  · exact ⟨FS.modernFS, by decide⟩

/-! ## The specification document: `/swagger.json` and `/api-docs` -/

/-- C1. When the in-memory specification `DocJSON` is set, a request whose path
after base-path stripping is `/swagger.json` or `/api-docs` is answered with
exactly the bytes of `DocJSON` and content type `application/json`, and no file
is read: the result is the same for every file system and every `DocPath`. -/
theorem docJSON_served_verbatim (cfg : Config) (doc : List UInt8) (fs : FileSystem)
    (r : Request) (hdoc : cfg.DocJSON = some doc)
    (hpath : (HTTPHandler cfg).routePath r = "/swagger.json" ∨
      (HTTPHandler cfg).routePath r = "/api-docs") :
    (HTTPHandler cfg).ServeHTTP fs r =
      { outcome := .wrote { status := 200, contentType := "application/json", body := doc }
        reads := [] } := by
  have hd : (HTTPHandler cfg).cfg.DocJSON = some doc := by
    show (withDefaults cfg).DocJSON = some doc
    rw [withDefaults_DocJSON, hdoc]
  unfold Handler.ServeHTTP
  simp only [if_pos hpath, hd]

theorem docJSON_served_verbatim_witness :
    (HTTPHandler { DocJSON := some [123, 125], DocPath := "other.json" }).ServeHTTP
        (fun _ => some [91, 93]) { path := "/doc/api-docs", query := [("theme", "modern")] } =
      { outcome := .wrote
          { status := 200, contentType := "application/json", body := [123, 125] }
        reads := [] } :=
  docJSON_served_verbatim { DocJSON := some [123, 125], DocPath := "other.json" } [123, 125]
    (fun _ => some [91, 93]) { path := "/doc/api-docs", query := [("theme", "modern")] }
    rfl (by decide)

/-- C2. Without an in-memory specification, a request whose path after base-path
stripping is `/swagger.json` or `/api-docs` reads the file at the handler's
`DocPath` (the configured one, `./docs/swagger.json` when it was left empty).
When the read fails the response is 404 with content type `application/json`
and the fixed error body; when it succeeds the response is the file's bytes with
status 200. -/
theorem docPath_read_or_404 (cfg : Config) (fs : FileSystem) (r : Request)
    (hdoc : cfg.DocJSON = none)
    (hpath : (HTTPHandler cfg).routePath r = "/swagger.json" ∨
      (HTTPHandler cfg).routePath r = "/api-docs") :
    (HTTPHandler cfg).cfg.DocPath =
        (if cfg.DocPath = "" then "./docs/swagger.json" else cfg.DocPath) ∧
    (fs (HTTPHandler cfg).cfg.DocPath = none →
      (HTTPHandler cfg).ServeHTTP fs r =
        { outcome := .wrote
            { status := 404, contentType := "application/json"
              body := bytesOf "\x7b\"error\": \"swagger.json not found\"\x7d" }
          reads := [(HTTPHandler cfg).cfg.DocPath] }) ∧
    (∀ data, fs (HTTPHandler cfg).cfg.DocPath = some data →
      (HTTPHandler cfg).ServeHTTP fs r =
        { outcome := .wrote { status := 200, contentType := "application/json", body := data }
          reads := [(HTTPHandler cfg).cfg.DocPath] }) ∧
    bytesOf "\x7b\"error\": \"swagger.json not found\"\x7d" =
      [123, 34, 101, 114, 114, 111, 114, 34, 58, 32, 34, 115, 119, 97, 103, 103, 101, 114, 46,
        106, 115, 111, 110, 32, 110, 111, 116, 32, 102, 111, 117, 110, 100, 34, 125] := by
  have hd : (HTTPHandler cfg).cfg.DocJSON = none := by
    show (withDefaults cfg).DocJSON = none
    rw [withDefaults_DocJSON, hdoc]
  refine ⟨withDefaults_DocPath cfg, ?_, ?_, by decide⟩
  · intro hfs
    unfold Handler.ServeHTTP
    simp only [if_pos hpath, hd, hfs]
  · intro data hfs
    unfold Handler.ServeHTTP
    simp only [if_pos hpath, hd, hfs]

theorem docPath_read_or_404_witness :
    (HTTPHandler { BasePath := "/doc", DocPath := "api.json" }).ServeHTTP
        (fun p => if p = "spec.json" then some [123, 125] else none)
        { path := "/doc/swagger.json" } =
      { outcome := .wrote
          { status := 404, contentType := "application/json"
            body := bytesOf "\x7b\"error\": \"swagger.json not found\"\x7d" }
        reads := ["api.json"] } ∧
    (HTTPHandler { BasePath := "/doc", DocPath := "spec.json" }).ServeHTTP
        (fun p => if p = "spec.json" then some [123, 125] else none)
        { path := "/doc/swagger.json" } =
      { outcome := .wrote
          { status := 200, contentType := "application/json", body := [123, 125] }
        reads := ["spec.json"] } :=
  ⟨(docPath_read_or_404 { BasePath := "/doc", DocPath := "api.json" }
      (fun p => if p = "spec.json" then some [123, 125] else none)
      { path := "/doc/swagger.json" } rfl (by decide)).2.1 (by decide),
   (docPath_read_or_404 { BasePath := "/doc", DocPath := "spec.json" }
      (fun p => if p = "spec.json" then some [123, 125] else none)
      { path := "/doc/swagger.json" } rfl (by decide)).2.2.1 [123, 125] (by decide)⟩

/-! ## Base-path stripping -/

/-- C3, as stated, fails.  With base path `/` nothing is stripped, so `//swagger.json`
goes to the theme file server while `/swagger.json` is the specification document;
and with base path `/doc` the sub-path `/doc/swagger.json` is itself stripped when
requested directly. -/
theorem basePath_request_counterexample :
    (HTTPHandler { BasePath := "/" }).ServeHTTP (fun _ => none)
        { path := "/" ++ "/swagger.json" } ≠
      (HTTPHandler { BasePath := "/" }).ServeHTTP (fun _ => none)
        { path := "/swagger.json" } ∧
    (HTTPHandler { BasePath := "/doc" }).ServeHTTP (fun _ => none)
        { path := "/doc" ++ "/doc/swagger.json" } ≠
      (HTTPHandler { BasePath := "/doc" }).ServeHTTP (fun _ => none)
        { path := "/doc/swagger.json" } := by
  decide

/-- C3, amended.  For every base path `B` other than `/` and every sub-path `P`
such that `B` is empty or `P` does not itself start with `B`, the handler's
result for the path `B ++ P` is its result for the path `P`. -/
theorem basePath_request_same (cfg : Config) (fs : FileSystem) (p : String) (q : Values)
    (hroot : cfg.BasePath ≠ "/")
    (hp : cfg.BasePath = "" ∨ strings.HasPrefix p cfg.BasePath = false) :
    (HTTPHandler cfg).ServeHTTP fs { path := cfg.BasePath ++ p, query := q } =
      (HTTPHandler cfg).ServeHTTP fs { path := p, query := q } := by
  by_cases hb : cfg.BasePath = ""
  · have : cfg.BasePath ++ p = p := by rw [hb]; exact String.empty_append p
    rw [this]
  · have hpre : strings.HasPrefix p cfg.BasePath = false := hp.resolve_left hb
    apply ServeHTTP_congr
    · rw [routePath_append cfg p q hb hroot]
      have hbase : (HTTPHandler cfg).cfg.BasePath = cfg.BasePath := by
        show (withDefaults cfg).BasePath = cfg.BasePath
        rw [withDefaults_BasePath, if_neg hb]
      unfold Handler.routePath
      simp only [hbase, ne_eq, hb, hroot, not_false_eq_true, and_self, if_true,
        strings.TrimPrefix_of_not p cfg.BasePath hpre]
    · exact theme_congr _ _ _ q q rfl

theorem basePath_request_same_witness :
    (HTTPHandler { BasePath := "/doc" }).ServeHTTP (fun _ => none)
        { path := "/doc" ++ "/config.json", query := [] } =
      (HTTPHandler { BasePath := "/doc" }).ServeHTTP (fun _ => none)
        { path := "/config.json", query := [] } :=
  basePath_request_same { BasePath := "/doc" } (fun _ => none) "/config.json" []
    (by decide) (Or.inr (by decide))

/-! ## Theme selection -/

/-- A theme parameter that names no theme, the empty one included, selects the
handler's default theme. -/
theorem theme_of_invalid (h : Handler) (r : Request)
    (hv : r.query.Get "theme" ∉ ["default", "minimal", "modern"]) :
    h.theme r = h.defaultTheme := by
  unfold Handler.theme
  by_cases he : r.query.Get "theme" = ""
  · simp only [he, if_true]
    split <;> rfl
  · simp only [he, if_false, lookup_isNone_of_not_mem _ hv, Option.isNone_none, if_true]

/-- When the configured theme is empty or names a theme, the theme selected for
any request names a theme, so its file server exists. -/
theorem theme_in_table (cfg : Config) (r : Request)
    (hT : cfg.UITheme = "" ∨ cfg.UITheme ∈ ["default", "minimal", "modern"]) :
    ∃ root, fileServers.lookup ((HTTPHandler cfg).theme r) = some root := by
  have hdef : (HTTPHandler cfg).defaultTheme ∈ ["default", "minimal", "modern"] := by
    rw [HTTPHandler_defaultTheme, defaultThemeOf]
    rcases hT with h | h
    · rw [if_pos h]
      decide
    · have hne : cfg.UITheme ≠ "" := by
        intro h0
        rw [h0] at h
        exact absurd h (by decide)
      rw [if_neg hne]
      exact h
  by_cases hv : r.query.Get "theme" ∈ ["default", "minimal", "modern"]
  · have hne : r.query.Get "theme" ≠ "" := by
      intro h0
      rw [h0] at hv
      exact absurd hv (by decide)
    obtain ⟨root, hroot⟩ := lookup_isSome_of_mem _ hv
    refine ⟨root, ?_⟩
    unfold Handler.theme
    simp only [if_neg hne, hroot, Option.isNone_some, Bool.false_eq_true, if_false]
  · rw [theme_of_invalid _ _ hv]
    exact lookup_isSome_of_mem _ hdef

/-- C4, evaluated at a configuration whose `UITheme` is not a theme name: the
selected theme is that name, the table `fileServers` has no entry for it, and
the handler calls the nil handler. -/
theorem unknown_UITheme_not_in_table :
    (HTTPHandler { UITheme := "dark" }).theme { path := "/doc/" } = "dark" ∧
    fileServers.lookup ((HTTPHandler { UITheme := "dark" }).theme { path := "/doc/" }) = none ∧
    (HTTPHandler { UITheme := "dark" }).ServeHTTP (fun _ => none) { path := "/doc/" } =
      { outcome := .nilHandler "/", reads := [] } ∧
    (HTTPHandler { UITheme := "dark" }).ServeHTTP (fun _ => none)
        { path := "/doc/", query := [("theme", "neon")] } =
      { outcome := .nilHandler "/", reads := [] } := by
  decide

/-- C5. A theme parameter whose value is not one of `default`, `minimal`,
`modern` (the empty value included) gives the same result, hence the same file
server, as a query without a theme parameter. -/
theorem invalid_theme_same_as_omitted (cfg : Config) (fs : FileSystem) (p : String)
    (q q' : Values)
    (hv : q.Get "theme" ∉ ["default", "minimal", "modern"])
    (habsent : ∀ kv ∈ q', kv.1 ≠ "theme") :
    (HTTPHandler cfg).theme { path := p, query := q } =
        (HTTPHandler cfg).theme { path := p, query := q' } ∧
    (HTTPHandler cfg).ServeHTTP fs { path := p, query := q } =
      (HTTPHandler cfg).ServeHTTP fs { path := p, query := q' } := by
  have h' : q'.Get "theme" ∉ ["default", "minimal", "modern"] := by
    rw [Values.Get_of_absent q' "theme" habsent]
    decide
  have ht : (HTTPHandler cfg).theme { path := p, query := q } =
      (HTTPHandler cfg).theme { path := p, query := q' } := by
    rw [theme_of_invalid _ _ hv, theme_of_invalid _ _ h']
  exact ⟨ht, ServeHTTP_congr _ fs _ _ rfl ht⟩

theorem invalid_theme_same_as_omitted_witness :
    (HTTPHandler { UITheme := "modern" }).ServeHTTP (fun _ => none)
        { path := "/doc/index.html", query := [("lang", "en"), ("theme", "neon")] } =
      (HTTPHandler { UITheme := "modern" }).ServeHTTP (fun _ => none)
        { path := "/doc/index.html", query := [("lang", "en")] } :=
  (invalid_theme_same_as_omitted { UITheme := "modern" } (fun _ => none) "/doc/index.html"
    [("lang", "en"), ("theme", "neon")] [("lang", "en")] (by decide) (by decide)).2

/-! ## Shared assets and theme assets -/

theorem assets_path_data (rest : String) :
    ("/assets/" ++ rest).data = '/' :: 'a' :: 's' :: 's' :: 'e' :: 't' :: 's' :: '/' :: rest.data := by
  rw [String.data_append]
  rfl

/-- C7. With a base path other than the empty string and `/`, a request for the
base path followed by `/assets/` and a remainder `R` is served from the shared
assets file server with path `/R`, whatever the query and the configured theme. -/
theorem assets_served_from_shared (cfg : Config) (fs : FileSystem) (rest : String)
    (q : Values) (h1 : cfg.BasePath ≠ "") (h2 : cfg.BasePath ≠ "/") :
    (HTTPHandler cfg).ServeHTTP fs { path := cfg.BasePath ++ "/assets/" ++ rest, query := q } =
      { outcome := .served FS.assetsFS ("/" ++ rest), reads := [] } := by
  have hd := assets_path_data rest
  have hne : ∀ s : String, s.data.get? 1 ≠ some 'a' → "/assets/" ++ rest ≠ s := by
    intro s hs heq
    apply hs
    rw [← heq, hd]
    rfl
  have e0 : "/assets/" ++ rest ≠ "" := hne _ (by decide)
  have e1 : "/assets/" ++ rest ≠ "/swagger.json" := hne _ (by decide)
  have e2 : "/assets/" ++ rest ≠ "/api-docs" := by
    intro heq
    have hs : ("/api-docs" : String).data.get? 2 = some 's' := by
      rw [← heq, hd]
      rfl
    exact absurd hs (by decide)
  have e3 : "/assets/" ++ rest ≠ "/config.json" := hne _ (by decide)
  have hpre : strings.HasPrefix ("/assets/" ++ rest) "/assets/" = true := by
    simp [strings.HasPrefix, List.isPrefixOf_iff_prefix]
  have htrim : strings.TrimPrefix ("/assets/" ++ rest) "/assets" = "/" ++ rest := by
    have : "/assets/" ++ rest = "/assets" ++ ("/" ++ rest) := by
      rw [← String.append_assoc]
      rfl
    rw [this, strings.TrimPrefix_append]
  have hroute : (HTTPHandler cfg).routePath
      { path := cfg.BasePath ++ "/assets/" ++ rest, query := q } = "/assets/" ++ rest := by
    rw [String.append_assoc, routePath_append cfg _ q h1 h2, if_neg e0]
  unfold Handler.ServeHTTP
  simp only [hroute, e1, e2, e3, or_self, if_false, hpre, if_true, htrim, assetsServer]

theorem assets_served_from_shared_witness :
    (HTTPHandler { BasePath := "/doc", UITheme := "modern" }).ServeHTTP (fun _ => none)
        { path := "/doc" ++ "/assets/" ++ "style.css", query := [("theme", "minimal")] } =
      { outcome := .served FS.assetsFS ("/" ++ "style.css"), reads := [] } :=
  assets_served_from_shared { BasePath := "/doc", UITheme := "modern" } (fun _ => none)
    "style.css" [("theme", "minimal")] (by decide) (by decide)

/-- C8. With a base path `B` other than the empty string and `/`, a configured
theme `T` among `default`, `minimal`, `modern`, and no theme parameter, a request
for `B ++ P`, where `P` is none of `/swagger.json`, `/api-docs`, `/config.json`
and does not start with `/assets/`, is served from the file server of `T` with
path `P`, or `/` when `P` is empty. -/
theorem theme_asset_served (cfg : Config) (fs : FileSystem) (p : String) (q : Values)
    (h1 : cfg.BasePath ≠ "") (h2 : cfg.BasePath ≠ "/")
    (hT : cfg.UITheme ∈ ["default", "minimal", "modern"])
    (habsent : ∀ kv ∈ q, kv.1 ≠ "theme")
    (hp1 : p ≠ "/swagger.json") (hp2 : p ≠ "/api-docs") (hp3 : p ≠ "/config.json")
    (hp4 : strings.HasPrefix p "/assets/" = false) :
    ∃ root, fileServers.lookup cfg.UITheme = some root ∧
      (HTTPHandler cfg).ServeHTTP fs { path := cfg.BasePath ++ p, query := q } =
        { outcome := .served root (if p = "" then "/" else p), reads := [] } := by
  obtain ⟨root, hroot⟩ := lookup_isSome_of_mem _ hT
  refine ⟨root, hroot, ?_⟩
  have hTne : cfg.UITheme ≠ "" := by
    intro h
    rw [h] at hT
    exact absurd hT (by decide)
  have hdef : (HTTPHandler cfg).defaultTheme = cfg.UITheme := by
    rw [HTTPHandler_defaultTheme, defaultThemeOf, if_neg hTne]
  have htheme : (HTTPHandler cfg).theme { path := cfg.BasePath ++ p, query := q } =
      cfg.UITheme := by
    rw [theme_of_invalid, hdef]
    show q.Get "theme" ∉ ["default", "minimal", "modern"]
    rw [Values.Get_of_absent q "theme" habsent]
    decide
  have hroute := routePath_append cfg p q h1 h2
  unfold Handler.ServeHTTP
  simp only [hroute, htheme, hroot]
  by_cases hp : p = ""
  · have a1 : ("/" : String) ≠ "/swagger.json" := by decide
    have a2 : ("/" : String) ≠ "/api-docs" := by decide
    have a3 : ("/" : String) ≠ "/config.json" := by decide
    have a4 : strings.HasPrefix "/" "/assets/" = false := by decide
    simp only [if_pos hp, a1, a2, a3, a4, or_self, if_false, Bool.false_eq_true]
  · simp only [if_neg hp, hp1, hp2, hp3, hp4, or_self, if_false, Bool.false_eq_true]

theorem theme_asset_served_witness :
    (HTTPHandler { BasePath := "/doc", UITheme := "minimal" }).ServeHTTP (fun _ => none)
        { path := "/doc" ++ "/", query := [] } =
      { outcome := .served FS.minimalFS "/", reads := [] } := by
  obtain ⟨root, hroot, h⟩ :=
    theme_asset_served { BasePath := "/doc", UITheme := "minimal" } (fun _ => none) "/" []
      (by decide) (by decide) (by decide) (by decide) (by decide) (by decide) (by decide)
      (by decide)
  have hmin : fileServers.lookup "minimal" = some FS.minimalFS := by decide
  have hr : root = FS.minimalFS := Option.some.inj (hroot.symm.trans hmin)
  rw [h, hr]
  rfl

/-! ## The runtime configuration document: `/config.json` -/

theorem render_obj (kvs : List (String × JSON)) :
    (JSON.obj kvs).render = "\x7b" ++ JSON.renderFields kvs ++ "\x7d" := by
  simp only [JSON.render]

theorem render_arr (xs : List JSON) :
    (JSON.arr xs).render = "[" ++ JSON.renderElems xs ++ "]" := by
  simp only [JSON.render]

theorem render_str (s : String) : (JSON.str s).render = json.quote s := by
  simp only [JSON.render]

theorem render_bool (b : Bool) : (JSON.bool b).render = if b then "true" else "false" := by
  cases b <;> rfl

theorem intercalate_go_render (xs : List JSON) (acc : String) (x : JSON) :
    String.intercalate.go (acc ++ x.render) "," (xs.map JSON.render) =
      acc ++ JSON.renderElems (x :: xs) := by
  induction xs generalizing acc x with
  | nil => simp [String.intercalate.go, JSON.renderElems]
  | cons y ys ih =>
    have h := ih (acc ++ x.render ++ ",") y
    simp only [List.map_cons, String.intercalate.go, JSON.renderElems]
    rw [h]
    simp only [String.append_assoc]

/-- The elements of an array are written separated by commas. -/
theorem renderElems_eq_intercalate (xs : List JSON) :
    JSON.renderElems xs = ",".intercalate (xs.map JSON.render) := by
  cases xs with
  | nil => rfl
  | cons x xs =>
    have h := intercalate_go_render xs "" x
    rw [String.empty_append, String.empty_append] at h
    simp only [List.map_cons, String.intercalate]
    exact h.symm

theorem render_header (h : Header) :
    (Header.toJSON h).render =
      "\x7b\"key\":" ++ json.quote h.Key ++ ",\"value\":" ++ json.quote h.Value ++ "\x7d" := by
  simp only [Header.toJSON, JSON.render, JSON.renderFields, String.append_assoc]
  rfl

theorem render_environment (e : Environment) :
    (Environment.toJSON e).render =
      "\x7b\"name\":" ++ json.quote e.Name ++ ",\"baseUrl\":" ++ json.quote e.BaseURL ++ "\x7d" := by
  simp only [Environment.toJSON, JSON.render, JSON.renderFields, String.append_assoc]
  rfl

theorem render_headers (hs : Option (List Header)) :
    (json.slice Header.toJSON hs).render =
      match hs with
      | none => "null"
      | some l => "[" ++ ",".intercalate (l.map fun h =>
          "\x7b\"key\":" ++ json.quote h.Key ++ ",\"value\":" ++ json.quote h.Value ++ "\x7d")
          ++ "]" := by
  cases hs with
  | none => rfl
  | some l =>
    simp only [json.slice, JSON.render, renderElems_eq_intercalate, List.map_map]
    congr 3
    exact List.map_congr_left (fun h _ => render_header h)

theorem render_environments (es : Option (List Environment)) :
    (json.slice Environment.toJSON es).render =
      match es with
      | none => "null"
      | some l => "[" ++ ",".intercalate (l.map fun e =>
          "\x7b\"name\":" ++ json.quote e.Name ++ ",\"baseUrl\":" ++ json.quote e.BaseURL
            ++ "\x7d") ++ "]" := by
  cases es with
  | none => rfl
  | some l =>
    simp only [json.slice, JSON.render, renderElems_eq_intercalate, List.map_map]
    congr 3
    exact List.map_congr_left (fun e _ => render_environment e)

theorem persistParamsOf_text (cfg : Config) :
    (JSON.bool (persistParamsOf cfg)).render =
      match cfg.PersistParams with
      | none => "true"
      | some true => "true"
      | some false => "false" := by
  unfold persistParamsOf
  rcases cfg.PersistParams with _ | _ | _ <;> rfl

/-- The text served at `/config.json`, member by member. -/
theorem configJSON_text (cfg : Config) :
    (HTTPHandler cfg).configJSON =
      "\x7b\"darkMode\":" ++ (if cfg.DarkMode then "true" else "false") ++
      ",\"defaultTheme\":" ++ json.quote (if cfg.UITheme = "" then "default" else cfg.UITheme) ++
      ",\"description\":" ++ json.quote cfg.Description ++
      ",\"enableDebug\":" ++ (if cfg.EnableDebug then "true" else "false") ++
      ",\"environments\":" ++
        (match cfg.Environments with
         | none => "null"
         | some l => "[" ++ ",".intercalate (l.map fun e =>
            "\x7b\"name\":" ++ json.quote e.Name ++ ",\"baseUrl\":" ++ json.quote e.BaseURL
              ++ "\x7d") ++ "]") ++
      ",\"globalHeaders\":" ++
        (match cfg.GlobalHeaders with
         | none => "null"
         | some l => "[" ++ ",".intercalate (l.map fun h =>
            "\x7b\"key\":" ++ json.quote h.Key ++ ",\"value\":" ++ json.quote h.Value
              ++ "\x7d") ++ "]") ++
      ",\"logo\":" ++ json.quote cfg.Logo ++
      ",\"logoLink\":" ++ json.quote cfg.LogoLink ++
      ",\"persistParams\":" ++
        (match cfg.PersistParams with
         | none => "true"
         | some true => "true"
         | some false => "false") ++
      ",\"qingfengVersion\":\"1.5.8\"" ++
      ",\"themes\":[\"default\",\"minimal\",\"modern\"]" ++
      ",\"title\":" ++ json.quote cfg.Title ++
      ",\"version\":" ++ json.quote cfg.Version ++ "\x7d" := by
  rw [configJSON_eq_render, configDocument_eq]
  simp only [render_obj, render_str, render_arr, JSON.renderFields, JSON.renderElems]
  rw [← render_environments, ← render_headers, ← persistParamsOf_text,
    ← render_bool cfg.DarkMode, ← render_bool cfg.EnableDebug]
  unfold defaultThemeOf
  generalize (json.slice Environment.toJSON cfg.Environments).render = E
  generalize (json.slice Header.toJSON cfg.GlobalHeaders).render = H
  generalize (JSON.bool (persistParamsOf cfg)).render = P
  generalize (JSON.bool cfg.DarkMode).render = D
  generalize (JSON.bool cfg.EnableDebug).render = G
  generalize json.quote (if cfg.UITheme = "" then "default" else cfg.UITheme) = T
  generalize json.quote cfg.Description = q1
  generalize json.quote cfg.Logo = q2
  generalize json.quote cfg.LogoLink = q3
  generalize json.quote cfg.Title = q4
  generalize json.quote cfg.Version = q5
  simp only [String.append_assoc]
  rfl

/-- C6, as stated, fails for a list left unset: a configuration with dark mode
on, two global headers and no `Environments` has `null`, not the empty array,
as its `environments` member, and the text served says so; likewise
`globalHeaders` is `null`, not an array, when `GlobalHeaders` is unset. -/
theorem unset_environments_counterexample :
    (configDocument
        { DarkMode := true, GlobalHeaders := some [⟨"X-A", "1"⟩, ⟨"X-B", "2"⟩] }).field
        "environments" = some JSON.null ∧
    (configDocument
        { DarkMode := true, GlobalHeaders := some [⟨"X-A", "1"⟩, ⟨"X-B", "2"⟩] }).field
        "environments" ≠ some (JSON.arr []) ∧
    (configDocument { DarkMode := true }).field "globalHeaders" = some JSON.null ∧
    (HTTPHandler { DarkMode := true, GlobalHeaders := some [⟨"X-A", "1"⟩, ⟨"X-B", "2"⟩] }).configJSON =
      "\x7b\"darkMode\":true,\"defaultTheme\":\"default\",\"description\":\"\"," ++
      "\"enableDebug\":false,\"environments\":null," ++
      "\"globalHeaders\":[\x7b\"key\":\"X-A\",\"value\":\"1\"\x7d,\x7b\"key\":\"X-B\",\"value\":\"2\"\x7d]," ++
      "\"logo\":\"\",\"logoLink\":\"\",\"persistParams\":true,\"qingfengVersion\":\"1.5.8\"," ++
      "\"themes\":[\"default\",\"minimal\",\"modern\"],\"title\":\"\",\"version\":\"\"\x7d" := by
  refine ⟨rfl, ?_, rfl, by decide⟩
  intro h
  have h2 : some JSON.null = some (JSON.arr []) := h
  cases h2

/-- C6, amended.  In the `/config.json` document the member `globalHeaders` is
the array of one `{key, value}` object per configured header, in order, when
`GlobalHeaders` is set (possibly to the empty list) and `null` when it is unset;
the member `environments` is likewise the array of one `{name, baseUrl}` object
per environment, in order, or `null`.  This is stated of the document and of the
text the handler serves, which is given in full.  In particular dark mode on,
two headers and an empty (set) environment list give a text with
`"darkMode":true`, a two-element header array in input order and `[]` for
`environments`. -/
theorem config_lists_encoded (cfg : Config) :
    (∀ hs, cfg.GlobalHeaders = some hs →
      (configDocument cfg).field "globalHeaders" =
        some (.arr (hs.map fun h => .obj [("key", .str h.Key), ("value", .str h.Value)]))) ∧
    (cfg.GlobalHeaders = none → (configDocument cfg).field "globalHeaders" = some .null) ∧
    (∀ es, cfg.Environments = some es →
      (configDocument cfg).field "environments" =
        some (.arr (es.map fun e => .obj [("name", .str e.Name), ("baseUrl", .str e.BaseURL)]))) ∧
    (cfg.Environments = none → (configDocument cfg).field "environments" = some .null) ∧
    (configDocument cfg).field "darkMode" = some (.bool cfg.DarkMode) ∧
    (HTTPHandler cfg).configJSON =
      "\x7b\"darkMode\":" ++ (if cfg.DarkMode then "true" else "false") ++
      ",\"defaultTheme\":" ++ json.quote (if cfg.UITheme = "" then "default" else cfg.UITheme) ++
      ",\"description\":" ++ json.quote cfg.Description ++
      ",\"enableDebug\":" ++ (if cfg.EnableDebug then "true" else "false") ++
      ",\"environments\":" ++
        (match cfg.Environments with
         | none => "null"
         | some l => "[" ++ ",".intercalate (l.map fun e =>
            "\x7b\"name\":" ++ json.quote e.Name ++ ",\"baseUrl\":" ++ json.quote e.BaseURL
              ++ "\x7d") ++ "]") ++
      ",\"globalHeaders\":" ++
        (match cfg.GlobalHeaders with
         | none => "null"
         | some l => "[" ++ ",".intercalate (l.map fun h =>
            "\x7b\"key\":" ++ json.quote h.Key ++ ",\"value\":" ++ json.quote h.Value
              ++ "\x7d") ++ "]") ++
      ",\"logo\":" ++ json.quote cfg.Logo ++
      ",\"logoLink\":" ++ json.quote cfg.LogoLink ++
      ",\"persistParams\":" ++
        (match cfg.PersistParams with
         | none => "true"
         | some true => "true"
         | some false => "false") ++
      ",\"qingfengVersion\":\"1.5.8\"" ++
      ",\"themes\":[\"default\",\"minimal\",\"modern\"]" ++
      ",\"title\":" ++ json.quote cfg.Title ++
      ",\"version\":" ++ json.quote cfg.Version ++ "\x7d" ∧
    (∀ h1 h2, cfg.DarkMode = true → cfg.GlobalHeaders = some [h1, h2] →
      cfg.Environments = some [] →
      (configDocument cfg).field "darkMode" = some (.bool true) ∧
      (configDocument cfg).field "globalHeaders" =
        some (.arr [.obj [("key", .str h1.Key), ("value", .str h1.Value)],
          .obj [("key", .str h2.Key), ("value", .str h2.Value)]]) ∧
      (configDocument cfg).field "environments" = some (.arr []) ∧
      (HTTPHandler cfg).configJSON =
        "\x7b\"darkMode\":true" ++
        ",\"defaultTheme\":" ++ json.quote (if cfg.UITheme = "" then "default" else cfg.UITheme) ++
        ",\"description\":" ++ json.quote cfg.Description ++
        ",\"enableDebug\":" ++ (if cfg.EnableDebug then "true" else "false") ++
        ",\"environments\":[]" ++
        ",\"globalHeaders\":[" ++
          "\x7b\"key\":" ++ json.quote h1.Key ++ ",\"value\":" ++ json.quote h1.Value ++ "\x7d," ++
          "\x7b\"key\":" ++ json.quote h2.Key ++ ",\"value\":" ++ json.quote h2.Value ++ "\x7d]" ++
        ",\"logo\":" ++ json.quote cfg.Logo ++
        ",\"logoLink\":" ++ json.quote cfg.LogoLink ++
        ",\"persistParams\":" ++
          (match cfg.PersistParams with
           | none => "true"
           | some true => "true"
           | some false => "false") ++
        ",\"qingfengVersion\":\"1.5.8\"" ++
        ",\"themes\":[\"default\",\"minimal\",\"modern\"]" ++
        ",\"title\":" ++ json.quote cfg.Title ++
        ",\"version\":" ++ json.quote cfg.Version ++ "\x7d") := by
  have hdoc := configDocument_eq cfg
  have hH : (configDocument cfg).field "globalHeaders" =
      some (json.slice Header.toJSON cfg.GlobalHeaders) := by rw [hdoc]; rfl
  have hE : (configDocument cfg).field "environments" =
      some (json.slice Environment.toJSON cfg.Environments) := by rw [hdoc]; rfl
  have hD : (configDocument cfg).field "darkMode" = some (.bool cfg.DarkMode) := by
    rw [hdoc]; rfl
  refine ⟨?_, ?_, ?_, ?_, hD, configJSON_text cfg, ?_⟩
  · intro hs h
    rw [hH, h]
    rfl
  · intro h
    rw [hH, h]
    rfl
  · intro es h
    rw [hE, h]
    rfl
  · intro h
    rw [hE, h]
    rfl
  · intro h1 h2 hd hh he
    refine ⟨?_, ?_, ?_, ?_⟩
    · rw [hD, hd]
    · rw [hH, hh]
      rfl
    · rw [hE, he]
      rfl
    · rw [configJSON_text cfg, hd, hh, he]
      simp only [List.map_cons, List.map_nil, String.intercalate, String.intercalate.go,
        if_true, String.append_assoc]
      rfl

theorem config_lists_encoded_witness :
    (configDocument
        { DarkMode := true, GlobalHeaders := some [⟨"X-A", "1"⟩, ⟨"X-B", "2"⟩]
          Environments := some [] }).field "globalHeaders" =
      some (.arr [.obj [("key", .str "X-A"), ("value", .str "1")],
        .obj [("key", .str "X-B"), ("value", .str "2")]]) ∧
    (configDocument
        { DarkMode := true, GlobalHeaders := some [⟨"X-A", "1"⟩, ⟨"X-B", "2"⟩]
          Environments := some [] }).field "environments" = some (.arr []) ∧
    (HTTPHandler
        { DarkMode := true, GlobalHeaders := some [⟨"X-A", "1"⟩, ⟨"X-B", "2"⟩]
          Environments := some [] }).configJSON =
      "\x7b\"darkMode\":true,\"defaultTheme\":\"default\",\"description\":\"\"," ++
      "\"enableDebug\":false,\"environments\":[]," ++
      "\"globalHeaders\":[\x7b\"key\":\"X-A\",\"value\":\"1\"\x7d,\x7b\"key\":\"X-B\",\"value\":\"2\"\x7d]," ++
      "\"logo\":\"\",\"logoLink\":\"\",\"persistParams\":true,\"qingfengVersion\":\"1.5.8\"," ++
      "\"themes\":[\"default\",\"minimal\",\"modern\"],\"title\":\"\",\"version\":\"\"\x7d" :=
  ⟨((config_lists_encoded
      { DarkMode := true, GlobalHeaders := some [⟨"X-A", "1"⟩, ⟨"X-B", "2"⟩]
        Environments := some [] }).2.2.2.2.2.2 ⟨"X-A", "1"⟩ ⟨"X-B", "2"⟩ rfl rfl rfl).2.1,
   ((config_lists_encoded
      { DarkMode := true, GlobalHeaders := some [⟨"X-A", "1"⟩, ⟨"X-B", "2"⟩]
        Environments := some [] }).2.2.2.2.2.2 ⟨"X-A", "1"⟩ ⟨"X-B", "2"⟩ rfl rfl rfl).2.2.1,
   ((config_lists_encoded
      { DarkMode := true, GlobalHeaders := some [⟨"X-A", "1"⟩, ⟨"X-B", "2"⟩]
        Environments := some [] }).2.2.2.2.2.2 ⟨"X-A", "1"⟩ ⟨"X-B", "2"⟩ rfl rfl rfl).2.2.2.trans
      (by decide)⟩

/-- C9. For a fixed configuration every request whose path after base-path
stripping is `/config.json` gets the same response, whatever its query and
whatever the state of the file system: status 200, content type
`application/json` and the bytes of the text computed once by `HTTPHandler`.
The handler value is not changed by serving a request, so earlier requests have
no influence. -/
theorem config_json_fixed (cfg : Config) (fs fs' : FileSystem) (r r' : Request)
    (hr : (HTTPHandler cfg).routePath r = "/config.json")
    (hr' : (HTTPHandler cfg).routePath r' = "/config.json") :
    (HTTPHandler cfg).ServeHTTP fs r = (HTTPHandler cfg).ServeHTTP fs' r' ∧
    (HTTPHandler cfg).ServeHTTP fs r =
      { outcome := .wrote
          { status := 200, contentType := "application/json"
            body := bytesOf (HTTPHandler cfg).configJSON }
        reads := [] } := by
  have key : ∀ (f : FileSystem) (x : Request),
      (HTTPHandler cfg).routePath x = "/config.json" →
      (HTTPHandler cfg).ServeHTTP f x =
        { outcome := .wrote
            { status := 200, contentType := "application/json"
              body := bytesOf (HTTPHandler cfg).configJSON }
          reads := [] } := by
    intro f x hx
    have n1 : ("/config.json" : String) ≠ "/swagger.json" := by decide
    have n2 : ("/config.json" : String) ≠ "/api-docs" := by decide
    unfold Handler.ServeHTTP
    simp only [hx, n1, n2, or_self, if_false, if_true]
  exact ⟨(key fs r hr).trans (key fs' r' hr').symm, key fs r hr⟩

theorem config_json_fixed_witness :
    (HTTPHandler { BasePath := "/doc", UITheme := "modern" }).ServeHTTP (fun _ => none)
        { path := "/doc/config.json", query := [("theme", "minimal")] } =
      (HTTPHandler { BasePath := "/doc", UITheme := "modern" }).ServeHTTP
        (fun _ => some [123, 125]) { path := "/doc/config.json", query := [("x", "1")] } :=
  (config_json_fixed { BasePath := "/doc", UITheme := "modern" } (fun _ => none)
    (fun _ => some [123, 125]) { path := "/doc/config.json", query := [("theme", "minimal")] }
    { path := "/doc/config.json", query := [("x", "1")] } (by decide) (by decide)).1

/-- C10. The member `persistParams` of the `/config.json` document is `true`
when `PersistParams` is unset and the value it points to otherwise, both in the
document and in the text the handler serves, which is given in full. -/
theorem persistParams_member (cfg : Config) :
    (cfg.PersistParams = none →
      (configDocument cfg).field "persistParams" = some (.bool true)) ∧
    (∀ b, cfg.PersistParams = some b →
      (configDocument cfg).field "persistParams" = some (.bool b)) ∧
    (HTTPHandler cfg).configJSON =
      "\x7b\"darkMode\":" ++ (if cfg.DarkMode then "true" else "false") ++
      ",\"defaultTheme\":" ++ json.quote (if cfg.UITheme = "" then "default" else cfg.UITheme) ++
      ",\"description\":" ++ json.quote cfg.Description ++
      ",\"enableDebug\":" ++ (if cfg.EnableDebug then "true" else "false") ++
      ",\"environments\":" ++
        (match cfg.Environments with
         | none => "null"
         | some l => "[" ++ ",".intercalate (l.map fun e =>
            "\x7b\"name\":" ++ json.quote e.Name ++ ",\"baseUrl\":" ++ json.quote e.BaseURL
              ++ "\x7d") ++ "]") ++
      ",\"globalHeaders\":" ++
        (match cfg.GlobalHeaders with
         | none => "null"
         | some l => "[" ++ ",".intercalate (l.map fun h =>
            "\x7b\"key\":" ++ json.quote h.Key ++ ",\"value\":" ++ json.quote h.Value
              ++ "\x7d") ++ "]") ++
      ",\"logo\":" ++ json.quote cfg.Logo ++
      ",\"logoLink\":" ++ json.quote cfg.LogoLink ++
      ",\"persistParams\":" ++
        (match cfg.PersistParams with
         | none => "true"
         | some true => "true"
         | some false => "false") ++
      ",\"qingfengVersion\":\"1.5.8\"" ++
      ",\"themes\":[\"default\",\"minimal\",\"modern\"]" ++
      ",\"title\":" ++ json.quote cfg.Title ++
      ",\"version\":" ++ json.quote cfg.Version ++ "\x7d" := by
  have hP : (configDocument cfg).field "persistParams" =
      some (.bool (persistParamsOf cfg)) := by
    rw [configDocument_eq]
    rfl
  refine ⟨?_, ?_, configJSON_text cfg⟩
  · intro h
    rw [hP, persistParamsOf, h]
  · intro b h
    rw [hP, persistParamsOf, h]

theorem persistParams_member_witness :
    (configDocument {}).field "persistParams" = some (.bool true) ∧
    (configDocument { PersistParams := some false }).field "persistParams" =
      some (.bool false) ∧
    (configDocument { PersistParams := some true }).field "persistParams" =
      some (.bool true) ∧
    (HTTPHandler {}).configJSON =
      "\x7b\"darkMode\":false,\"defaultTheme\":\"default\",\"description\":\"\"," ++
      "\"enableDebug\":false,\"environments\":null,\"globalHeaders\":null," ++
      "\"logo\":\"\",\"logoLink\":\"\",\"persistParams\":true,\"qingfengVersion\":\"1.5.8\"," ++
      "\"themes\":[\"default\",\"minimal\",\"modern\"],\"title\":\"\",\"version\":\"\"\x7d" ∧
    (HTTPHandler { PersistParams := some false }).configJSON =
      "\x7b\"darkMode\":false,\"defaultTheme\":\"default\",\"description\":\"\"," ++
      "\"enableDebug\":false,\"environments\":null,\"globalHeaders\":null," ++
      "\"logo\":\"\",\"logoLink\":\"\",\"persistParams\":false,\"qingfengVersion\":\"1.5.8\"," ++
      "\"themes\":[\"default\",\"minimal\",\"modern\"],\"title\":\"\",\"version\":\"\"\x7d" ∧
    (HTTPHandler { PersistParams := some true }).configJSON =
      "\x7b\"darkMode\":false,\"defaultTheme\":\"default\",\"description\":\"\"," ++
      "\"enableDebug\":false,\"environments\":null,\"globalHeaders\":null," ++
      "\"logo\":\"\",\"logoLink\":\"\",\"persistParams\":true,\"qingfengVersion\":\"1.5.8\"," ++
      "\"themes\":[\"default\",\"minimal\",\"modern\"],\"title\":\"\",\"version\":\"\"\x7d" :=
  ⟨(persistParams_member {}).1 rfl,
   (persistParams_member { PersistParams := some false }).2.1 false rfl,
   (persistParams_member { PersistParams := some true }).2.1 true rfl,
   (persistParams_member {}).2.2.trans (by decide),
   (persistParams_member { PersistParams := some false }).2.2.trans (by decide),
   (persistParams_member { PersistParams := some true }).2.2.trans (by decide)⟩

end QingFeng
